import Mathlib

/-!
Shallow embedding of the trading-strategy analyzer core
(`src/tradingService.ts`, `src/src/utils.ts`, types from `types.ts`).

JS `number` values are modelled as exact rationals (`ℚ`).  The three
primitive operations that have no exact rational counterpart —
`Math.sqrt`, `Math.pow` with a fractional exponent, and
`new Date(s).getTime()` — are abstracted into a bundle `Prims` that every
definition threads through and every theorem quantifies over: none of the
verified claims depends on their values.  JS values that the code can set
to `±Infinity` (the optimizer score, `profitFactor`, `calmarRatio`) are
modelled by the four-point type `JNum` mirroring IEEE comparison rules;
everywhere else the code keeps values finite, and plain `ℚ` is used.
-/

namespace StocksAnalyzer

/-- Abstracted numeric primitives: `Math.sqrt`, `Math.pow base exp`, and
`new Date(s).getTime()` (milliseconds).  No claim below depends on their
values, so theorems quantify over an arbitrary bundle. -/
structure Prims where
  sqrt : ℚ → ℚ
  powr : ℚ → ℚ → ℚ
  dateMs : String → ℚ

/-- A JS number that the code can drive to `±Infinity` or `NaN`. -/
inductive JNum where
  | num (q : ℚ)
  | posInf
  | negInf
  | nan
deriving DecidableEq

/-- JS `<` on `JNum` (any comparison involving `NaN` is false). -/
def JNum.jlt : JNum → JNum → Bool
  | .nan, _ => false
  | _, .nan => false
  | .num a, .num b => a < b
  | .negInf, .num _ => true
  | .negInf, .posInf => true
  | .negInf, .negInf => false
  | .num _, .posInf => true
  | .num _, .negInf => false
  | .posInf, _ => false

/-- JS `isFinite`. -/
def JNum.isFinite : JNum → Bool
  | .num _ => true
  | _ => false

-- DATA MODEL (types.ts)

/-- `StockData`: parallel OHLCV series. -/
structure StockData where
  dates : List String
  o : List ℚ
  h : List ℚ
  l : List ℚ
  c : List ℚ
  v : List ℚ
deriving DecidableEq

/-- Bollinger-band triple of series. -/
structure BBSeries where
  upper : List (Option ℚ)
  middle : List (Option ℚ)
  lower : List (Option ℚ)
deriving DecidableEq

/-- MACD triple of series (`MACD`, `signal`, `histogram`). -/
structure MACDSeries where
  line : List (Option ℚ)
  signal : List (Option ℚ)
  histogram : List (Option ℚ)
deriving DecidableEq

/-- `Indicators` record. -/
structure Indicators where
  bb : BBSeries
  rsi : List (Option ℚ)
  macd : MACDSeries
  atr : List (Option ℚ)
  sma_slow : List (Option ℚ)
  sma_fast : List (Option ℚ)
deriving DecidableEq

/-- `StrategyParameters`.  All numeric fields are JS numbers, hence `ℚ`
here (including periods: the optimizer writes swept range values straight
into them). -/
structure StrategyParameters where
  useBB : Bool
  useRSI : Bool
  useMACD : Bool
  bbPeriod : ℚ
  bbStd : ℚ
  rsiPeriod : ℚ
  rsiOverbought : ℚ
  rsiOversold : ℚ
  macdFast : ℚ
  macdSlow : ℚ
  macdSignal : ℚ
  riskPct : ℚ
  stopATR : ℚ
  commission : ℚ
  slipBps : ℚ
  useTrendFilter : Bool
  trendFilterPeriod : ℚ
  useTakeProfit : Bool
  takeProfitATR : ℚ
  useMomentumEntry : Bool
  momentumSMAPeriod : ℚ
deriving DecidableEq

/-- Trade / signal direction. -/
inductive TType where
  | buy
  | sell
deriving DecidableEq

/-- A `Trade` ledger entry. -/
structure Trade where
  type : TType
  date : String
  price : ℚ
  shares : ℤ
  reason : String
deriving DecidableEq

/-- A `Signal`. -/
structure Signal where
  type : TType
  index : ℕ
  date : String
  price : ℚ
  reason : String
deriving DecidableEq

/-- `BacktestMetrics`.  `profitFactor` and `calmarRatio` can be set to
`Infinity` by the code and are therefore `JNum`. -/
structure BacktestMetrics where
  finalEquity : ℚ
  totalReturn : ℚ
  winRate : ℚ
  profitFactor : JNum
  avgWin : ℚ
  avgLoss : ℚ
  maxDrawdown : ℚ
  sharpeRatio : ℚ
  sortinoRatio : ℚ
  calmarRatio : JNum
  cagr : ℚ
  numTrades : ℕ
  timeInMarketPct : ℚ
  maxConsecLosses : ℕ
deriving DecidableEq

/-- `BacktestResult`. -/
structure BacktestResult where
  trades : List Trade
  signals : List Signal
  equity : List ℚ
  equityDates : List String
  metrics : BacktestMetrics
deriving DecidableEq

/-- `Timeframe`. -/
inductive Timeframe where
  | daily
  | weekly
  | monthly
deriving DecidableEq

-- JS HELPERS

/-- JS `ToIntegerOrInfinity` on a finite number: truncation toward zero. -/
def jsTrunc (q : ℚ) : ℤ :=
  if q < 0 then -(⌊-q⌋) else ⌊q⌋

/-- Resolve one `Array.prototype.slice` argument against a length:
negative indices count from the end, results are clamped to `[0, len]`. -/
def jsSliceIdx (len : ℕ) (q : ℚ) : ℕ :=
  let r := jsTrunc q
  if r < 0 then ((len : ℤ) + r).toNat else min r.toNat len

/-- JS `xs.slice(start, stop)` (both arguments present, finite). -/
def jsSlice (xs : List ℚ) (start stop : ℚ) : List ℚ :=
  let a := jsSliceIdx xs.length start
  let b := jsSliceIdx xs.length stop
  (xs.drop a).take (b - a)

-- INDICATOR CALCULATIONS (tradingService.ts)

/-- Loop body state for `rma`: output so far, running `avg`, `count`. -/
structure RmaState where
  out : List (Option ℚ)
  avg : ℚ
  count : ℕ

/-- Wilder running moving average `rma(values, period)`: `null` inputs are
passed through, the first `period` non-null values are seeded by a simple
average, thereafter `avg = (avg*(period-1) + v)/period`. -/
def rma (values : List (Option ℚ)) (period : ℚ) : List (Option ℚ) :=
  let final := values.foldl
    (fun (s : RmaState) v =>
      match v with
      | none => { s with out := s.out ++ [none] }
      | some x =>
        if (s.count : ℚ) < period then
          let avg := s.avg + x
          let count := s.count + 1
          if (count : ℚ) < period then
            { out := s.out ++ [none], avg := avg, count := count }
          else
            let avg := avg / period
            { out := s.out ++ [some avg], avg := avg, count := count }
        else
          let avg := (s.avg * (period - 1) + x) / period
          { out := s.out ++ [some avg], avg := avg, count := s.count })
    ⟨[], 0, 0⟩
  final.out

/-- `calcRSI(close, period)`:  bar-over-bar changes, gains/losses split,
RMA smoothing, `RS = losses == 0 ? 1000 : gains/losses`,
`RSI = 100 - 100/(1+RS)`; one leading `null` for the first bar. -/
def calcRSI (close : List ℚ) (period : ℚ) : List (Option ℚ) :=
  let ch := (close.tail.zip close).map (fun pr => pr.1 - pr.2)
  let gains := ch.map (fun x => if x > 0 then x else 0)
  let losses := ch.map (fun x => if x < 0 then -x else 0)
  let avgG := rma (gains.map some) period
  let avgL := rma (losses.map some) period
  let rsi := [none] ++ (avgG.zip avgL).map (fun pr =>
    match pr.1, pr.2 with
    | some g, some l =>
      let rs := if l = 0 then 1000 else g / l
      some (100 - 100 / (1 + rs))
    | _, _ => none)
  rsi ++ List.replicate (close.length - rsi.length) none

/-- Loop body state for `ema`. -/
structure EmaState where
  out : List (Option ℚ)
  prev : Option ℚ
  sum : ℚ
  n : ℕ

/-- `ema(values, period)`: seeded by a simple average once exactly
`period` values accumulated, thereafter `ema = v*k + prev*(1-k)` with
`k = 2/(period+1)`. -/
def ema (values : List ℚ) (period : ℚ) : List (Option ℚ) :=
  let k := 2 / (period + 1)
  let final := values.foldl
    (fun (s : EmaState) v =>
      match s.prev with
      | none =>
        let sum := s.sum + v
        let n := s.n + 1
        if (n : ℚ) = period then
          let p := sum / period
          { out := s.out ++ [some p], prev := some p, sum := sum, n := n }
        else
          { out := s.out ++ [none], prev := none, sum := sum, n := n }
      | some p =>
        let p2 := v * k + p * (1 - k)
        { s with out := s.out ++ [some p2], prev := some p2 })
    ⟨[], none, 0, 0⟩
  final.out

/-- `calcMACD(close, fast, slow, signal)`. -/
def calcMACD (close : List ℚ) (fast slow si : ℚ) : MACDSeries :=
  let emaF := ema close fast
  let emaS := ema close slow
  let macd := (List.range close.length).map (fun i =>
    match emaF.getD i none, emaS.getD i none with
    | some a, some b => some (a - b)
    | _, _ => none)
  let sigRaw := ema (macd.map (fun x => x.getD 0)) si
  let sig := (List.range macd.length).map (fun i =>
    match macd.getD i none with
    | none => none
    | some _ => sigRaw.getD i none)
  let hist := (List.range macd.length).map (fun i =>
    match macd.getD i none, sig.getD i none with
    | some m, some s => some (m - s)
    | _, _ => none)
  ⟨macd, sig, hist⟩

/-- `calcBB(close, period, std)`: trailing-window mean and population
standard deviation (via the abstract `sqrt`). -/
def calcBB (P : Prims) (close : List ℚ) (period std : ℚ) : BBSeries :=
  let rows := (List.range close.length).map (fun i =>
    if (i : ℚ) < period - 1 then
      (none, none, none)
    else
      let slice := jsSlice close ((i : ℚ) - period + 1) ((i : ℚ) + 1)
      let mean := slice.sum / period
      let variance := (slice.map (fun x => (x - mean) ^ 2)).sum / period
      let sd := P.sqrt variance
      (some (mean + std * sd), some mean, some (mean - std * sd)))
  ⟨rows.map (fun r => r.1), rows.map (fun r => r.2.1), rows.map (fun r => r.2.2)⟩

/-- `calcATR(h, l, c, period)`: true range smoothed with RMA; the first
bar's true range is `high - low`. -/
def calcATR (h l c : List ℚ) (period : ℚ) : List (Option ℚ) :=
  let tr := (List.range c.length).map (fun i =>
    if i = 0 then
      h.getD i 0 - l.getD i 0
    else
      max (h.getD i 0 - l.getD i 0)
        (max |h.getD i 0 - c.getD (i - 1) 0| |l.getD i 0 - c.getD (i - 1) 0|))
  rma (tr.map some) period

/-- `sma(values, period)`: simple trailing-window mean. -/
def sma (values : List ℚ) (period : ℚ) : List (Option ℚ) :=
  (List.range values.length).map (fun i =>
    if (i : ℚ) < period - 1 then
      none
    else
      some ((jsSlice values ((i : ℚ) - period + 1) ((i : ℚ) + 1)).sum / period))

/-- `calculateAllIndicators(data, p)`. -/
def calculateAllIndicators (P : Prims) (data : StockData) (p : StrategyParameters) : Indicators :=
  { bb := calcBB P data.c p.bbPeriod p.bbStd
    rsi := calcRSI data.c p.rsiPeriod
    macd := calcMACD data.c p.macdFast p.macdSlow p.macdSignal
    atr := calcATR data.h data.l data.c 14
    sma_slow := sma data.c p.trendFilterPeriod
    sma_fast := sma data.c p.momentumSMAPeriod }

-- BACKTESTING ENGINE (tradingService.ts)

/-- The emission tail of the `generateSignals` loop body: a buy (reason
`"Momentum Entry"` when momentum-only, else `"Reversal Entry"`) takes
priority, otherwise a reversal sell, otherwise nothing. -/
def emitSignal (totalBuy isReversalSell momentumOnly : Bool) (i : ℕ) (date : String)
    (price : ℚ) : Option Signal :=
  if totalBuy then
    some ⟨TType.buy, i, date, price,
      if momentumOnly then "Momentum Entry" else "Reversal Entry"⟩
  else if isReversalSell then
    some ⟨TType.sell, i, date, price, "Reversal Sell"⟩
  else
    none

/-- Body of the `generateSignals` loop for one bar `i ≥ 1`: the up-to-one
signal the bar emits (buy takes priority over a reversal sell). -/
def signalAt (data : StockData) (ind : Indicators) (p : StrategyParameters) (i : ℕ) : Option Signal :=
  let price := data.c.getD i 0
  let bbBuy : Bool := p.useBB && (ind.bb.upper.getD i none).isSome
      && (ind.bb.lower.getD i none).isSome && price ≤ (ind.bb.lower.getD i none).getD 0
  let bbSell : Bool := p.useBB && (ind.bb.upper.getD i none).isSome
      && (ind.bb.lower.getD i none).isSome && price ≥ (ind.bb.upper.getD i none).getD 0
  let rsiBuy : Bool := p.useRSI && (ind.rsi.getD i none).isSome
      && (ind.rsi.getD i none).getD 0 ≤ p.rsiOversold
  let rsiSell : Bool := p.useRSI && (ind.rsi.getD i none).isSome
      && (ind.rsi.getD i none).getD 0 ≥ p.rsiOverbought
  let macdDefined : Bool := p.useMACD && (ind.macd.line.getD i none).isSome
      && (ind.macd.signal.getD i none).isSome && (ind.macd.line.getD (i - 1) none).isSome
      && (ind.macd.signal.getD (i - 1) none).isSome
  let macdBuy : Bool := macdDefined
      && (ind.macd.line.getD i none).getD 0 > (ind.macd.signal.getD i none).getD 0
      && (ind.macd.line.getD (i - 1) none).getD 0 ≤ (ind.macd.signal.getD (i - 1) none).getD 0
  let macdSell : Bool := macdDefined
      && (ind.macd.line.getD i none).getD 0 < (ind.macd.signal.getD i none).getD 0
      && (ind.macd.line.getD (i - 1) none).getD 0 ≥ (ind.macd.signal.getD (i - 1) none).getD 0
  let reversalBuys := (if bbBuy then 1 else 0) + (if rsiBuy then 1 else 0)
      + (if macdBuy then 1 else 0)
  let reversalSells := (if bbSell then 1 else 0) + (if rsiSell then 1 else 0)
      + (if macdSell then 1 else 0)
  let isReversalBuy : Bool := reversalBuys > 0 && reversalSells == 0
  let isReversalSell : Bool := reversalSells > 0 && reversalBuys == 0
  let isMomentumBuy : Bool := p.useMomentumEntry && (ind.sma_fast.getD i none).isSome
      && (ind.rsi.getD i none).isSome && price > (ind.sma_fast.getD i none).getD 0
      && (ind.rsi.getD i none).getD 0 > 50
  let totalBuy0 : Bool := isReversalBuy || isMomentumBuy
  let totalBuy : Bool := totalBuy0
      && !(p.useTrendFilter && (ind.sma_slow.getD i none).isSome
            && price < (ind.sma_slow.getD i none).getD 0)
  emitSignal totalBuy isReversalSell (isMomentumBuy && !isReversalBuy) i
    (data.dates.getD i "") price

/-- `generateSignals(data, ind, p)`: bars `1 .. N-1` in order, at most one
signal per bar. -/
def generateSignals (data : StockData) (ind : Indicators) (p : StrategyParameters) : List Signal :=
  (List.range' 1 (data.dates.length - 1)).filterMap (signalAt data ind p)

/-- Indices of the buy signals (membership models the `buyIdx` set). -/
def buyIndexList (data : StockData) (ind : Indicators) (p : StrategyParameters) : List ℕ :=
  ((generateSignals data ind p).filter (fun s => s.type == TType.buy)).map (fun s => s.index)

/-- Indices of the sell signals (membership models the `sellIdx` set). -/
def sellIndexList (data : StockData) (ind : Indicators) (p : StrategyParameters) : List ℕ :=
  ((generateSignals data ind p).filter (fun s => s.type == TType.sell)).map (fun s => s.index)

/-- An open position: `{ shares, entry }`. -/
structure Pos where
  shares : ℤ
  entry : ℚ
deriving DecidableEq

/-- Mutable state of the `runBacktest` bar loop. -/
structure BTState where
  cash : ℚ
  pos : Option Pos
  equity : List ℚ
  equityDates : List String
  peak : ℚ
  maxDD : ℚ
  trades : List Trade
  exposureBars : ℕ
deriving DecidableEq

/-- ATR value at bar `i` with the 2%-of-close fallback:
`atr[i] ?? (c[i] * 0.02)`. -/
def atrAt (data : StockData) (atr : List (Option ℚ)) (i : ℕ) : ℚ :=
  (atr.getD i none).getD (data.c.getD i 0 * (2 / 100))

/-- Signal-exit rule: if holding and the previous bar emitted a sell
signal, close at `o[i] * (1 - slip)` minus commission. -/
def applySignalExit (data : StockData) (p : StrategyParameters) (slip : ℚ)
    (sellIdx : List ℕ) (i : ℕ) (s : BTState) : BTState :=
  match s.pos with
  | some pr =>
    if i - 1 ∈ sellIdx then
      let exitPx := data.o.getD i 0 * (1 - slip)
      { s with
        cash := s.cash + pr.shares * exitPx - p.commission
        trades := s.trades ++ [⟨TType.sell, data.dates.getD i "", exitPx, pr.shares, "Signal Exit"⟩]
        pos := none }
    else s
  | none => s

/-- Take-profit rule. -/
def applyTakeProfit (data : StockData) (atr : List (Option ℚ)) (p : StrategyParameters)
    (slip : ℚ) (i : ℕ) (s : BTState) : BTState :=
  match s.pos with
  | some pr =>
    if p.useTakeProfit then
      let lvl := pr.entry + p.takeProfitATR * atrAt data atr i
      if data.h.getD i 0 ≥ lvl then
        let px := max (data.o.getD i 0) lvl * (1 - slip)
        { s with
          cash := s.cash + pr.shares * px - p.commission
          trades := s.trades ++ [⟨TType.sell, data.dates.getD i "", px, pr.shares, "Take Profit"⟩]
          pos := none }
      else s
    else s
  | none => s

/-- Stop-loss rule. -/
def applyStopLoss (data : StockData) (atr : List (Option ℚ)) (p : StrategyParameters)
    (slip : ℚ) (i : ℕ) (s : BTState) : BTState :=
  match s.pos with
  | some pr =>
    let lvl := pr.entry - p.stopATR * atrAt data atr i
    if data.l.getD i 0 ≤ lvl then
      let px := min (data.o.getD i 0) lvl * (1 - slip)
      { s with
        cash := s.cash + pr.shares * px - p.commission
        trades := s.trades ++ [⟨TType.sell, data.dates.getD i "", px, pr.shares, "Stop Loss"⟩]
        pos := none }
    else s
  | none => s

/-- Signal-entry rule: only when flat and the previous bar emitted a buy
signal; fill at `o[i] * (1 + slip)`, risk-based position sizing. -/
def applyEntry (data : StockData) (atr : List (Option ℚ)) (p : StrategyParameters)
    (slip : ℚ) (buyIdx : List ℕ) (i : ℕ) (s : BTState) : BTState :=
  match s.pos with
  | some _ => s
  | none =>
    if i - 1 ∈ buyIdx then
      let px := data.o.getD i 0 * (1 + slip)
      let stopDist := max (1 / 100) (p.stopATR * atrAt data atr i)
      let riskDollars := s.cash * (p.riskPct / 100)
      let shares : ℤ := ⌊riskDollars / stopDist⌋
      if 0 < shares ∧ s.cash ≥ shares * px + p.commission then
        { s with
          cash := s.cash - (shares * px + p.commission)
          pos := some ⟨shares, px⟩
          trades := s.trades ++ [⟨TType.buy, data.dates.getD i "", px, shares, "Signal Entry"⟩] }
      else s
    else s

/-- End-of-bar bookkeeping: exposure count, mark-to-market equity, peak
and maximum drawdown. -/
def applyMark (data : StockData) (i : ℕ) (s : BTState) : BTState :=
  let exposureBars := if s.pos.isSome then s.exposureBars + 1 else s.exposureBars
  let eq := s.cash + (match s.pos with | some pr => (pr.shares : ℚ) * data.c.getD i 0 | none => 0)
  let peak := if eq > s.peak then eq else s.peak
  { s with
    exposureBars := exposureBars
    equity := s.equity ++ [eq]
    equityDates := s.equityDates ++ [data.dates.getD i ""]
    peak := peak
    maxDD := max s.maxDD ((peak - eq) / peak * 100) }

/-- One iteration of the `runBacktest` bar loop: signal exit, take
profit, stop loss, signal entry, bookkeeping — in that order. -/
def stepBar (data : StockData) (atr : List (Option ℚ)) (p : StrategyParameters) (slip : ℚ)
    (buyIdx sellIdx : List ℕ) (s : BTState) (i : ℕ) : BTState :=
  applyMark data i
    (applyEntry data atr p slip buyIdx i
      (applyStopLoss data atr p slip i
        (applyTakeProfit data atr p slip i
          (applySignalExit data p slip sellIdx i s))))

/-- Initial loop state: `cash = 10000`, no position. -/
def initState : BTState :=
  ⟨10000, none, [], [], 10000, 0, [], 0⟩

/-- The loop state after iterating bars `1 .. N-1`. -/
def backtestFinal (data : StockData) (ind : Indicators) (p : StrategyParameters) : BTState :=
  let slip := p.slipBps / 10000
  let buyIdx := buyIndexList data ind p
  let sellIdx := sellIndexList data ind p
  (List.range' 1 (data.c.length - 1)).foldl (stepBar data ind.atr p slip buyIdx sellIdx) initState

/-- Post-hoc round-trip pairing: each sell matched to the preceding
unmatched buy. -/
def pairTrades : List Trade → List (Trade × Trade) :=
  let rec go (lastBuy : Option Trade) : List Trade → List (Trade × Trade)
    | [] => []
    | t :: rest =>
      if t.type = TType.buy then go (some t) rest
      else
        match lastBuy with
        | some b => (b, t) :: go none rest
        | none => go lastBuy rest
  go none

/-- Gross profit over the winning round trips. -/
def grossProfitOf (paired : List (Trade × Trade)) : ℚ :=
  ((paired.filter (fun pr => pr.2.price > pr.1.price)).map
    (fun pr => (pr.2.price - pr.1.price) * (pr.1.shares : ℚ))).sum

/-- Gross loss over the non-winning round trips. -/
def grossLossOf (paired : List (Trade × Trade)) : ℚ :=
  ((paired.filter (fun pr => pr.2.price ≤ pr.1.price)).map
    (fun pr => (pr.1.price - pr.2.price) * (pr.1.shares : ℚ))).sum

/-- Longest run of non-positive round-trip returns. -/
def maxConsecLossesOf (rets : List ℚ) : ℕ :=
  (rets.foldl
    (fun (pr : ℕ × ℕ) r =>
      if r ≤ 0 then (pr.1 + 1, max pr.2 (pr.1 + 1)) else (0, pr.2))
    (0, 0)).2

/-- `runBacktest(data, ind, p, timeframe)`. -/
def runBacktest (P : Prims) (data : StockData) (ind : Indicators) (p : StrategyParameters)
    (timeframe : Timeframe) : BacktestResult :=
  let N := data.c.length
  let initialCapital : ℚ := 10000
  let slip := p.slipBps / 10000
  let signals := generateSignals data ind p
  let sF := backtestFinal data ind p
  let finalEquity :=
    match sF.pos with
    | some pr => sF.cash + (pr.shares : ℚ) * (data.c.getD (N - 1) 0 * (1 - slip))
    | none => sF.cash
  let paired := pairTrades sF.trades
  let rets := paired.map (fun pr => (pr.2.price - pr.1.price) / pr.1.price)
  let wins := rets.filter (fun r => r > 0)
  let losses := rets.filter (fun r => r ≤ 0)
  let winRate := if paired.length > 0 then ((wins.length : ℚ) / paired.length) * 100 else 0
  let avgWin := if wins.length ≠ 0 then wins.sum / (wins.length : ℚ) * 100 else 0
  let avgLoss := if losses.length ≠ 0 then |losses.sum / (losses.length : ℚ)| * 100 else 0
  let grossLoss := grossLossOf paired
  let profitFactor : JNum :=
    if grossLoss > 0 then .num (grossProfitOf paired / grossLoss) else .posInf
  let years := (P.dateMs (data.dates.getD (data.dates.length - 1) "")
      - P.dateMs (data.dates.getD 0 "")) / ((1461 / 4) * 24 * 3600 * 1000)
  let totalReturn := (finalEquity - initialCapital) / initialCapital * 100
  let cagr := if years > 0 then (P.powr (finalEquity / initialCapital) (1 / years) - 1) * 100 else 0
  let periodReturns := (sF.equity.tail.zip sF.equity).map (fun pr => (pr.1 - pr.2) / pr.2)
  let meanReturn := if periodReturns.length > 0 then periodReturns.sum / (periodReturns.length : ℚ) else 0
  let stdDev := if periodReturns.length > 0 then
      P.sqrt ((periodReturns.map (fun r => (r - meanReturn) ^ 2)).sum / (periodReturns.length : ℚ))
    else 0
  let ann : ℚ := match timeframe with
    | .daily => 252
    | .weekly => 52
    | .monthly => 12
  let sharpeRatio := if stdDev > 0 then meanReturn * ann / (stdDev * P.sqrt ann) else 0
  let negReturns := periodReturns.filter (fun r => r < 0)
  let downsideDev := if negReturns.length > 0 then
      P.sqrt ((negReturns.map (fun r => r * r)).sum / (negReturns.length : ℚ))
    else 0
  let sortinoRatio := if downsideDev > 0 then meanReturn * ann / (downsideDev * P.sqrt ann) else 0
  let cagrQ := cagr
  let calmarRatio : JNum := if sF.maxDD > 0 then .num (cagrQ / sF.maxDD) else .posInf
  { trades := sF.trades
    signals := signals
    equity := sF.equity
    equityDates := sF.equityDates
    metrics :=
      { finalEquity := finalEquity
        totalReturn := totalReturn
        winRate := winRate
        profitFactor := profitFactor
        avgWin := avgWin
        avgLoss := avgLoss
        maxDrawdown := sF.maxDD
        sharpeRatio := sharpeRatio
        sortinoRatio := sortinoRatio
        calmarRatio := calmarRatio
        cagr := cagr
        numTrades := paired.length
        timeInMarketPct := ((sF.exposureBars : ℚ) / (N : ℚ)) * 100
        maxConsecLosses := maxConsecLossesOf rets } }

-- OPTIMIZATION ENGINE (tradingService.ts)

/-- The ten sweepable fields of `StrategyParameters`. -/
inductive ParamField where
  | rsiPeriod
  | bbStd
  | stopATR
  | rsiOversold
  | riskPct
  | bbPeriod
  | rsiOverbought
  | macdFast
  | macdSlow
  | macdSignal
deriving DecidableEq

/-- `paramKeyMap`: external identifier → internal field; identifiers
outside the ten-entry table map to nothing (JS `undefined`). -/
def paramKeyMap (key : String) : Option ParamField :=
  if key = "rsi_period" then some .rsiPeriod
  else if key = "bb_std" then some .bbStd
  else if key = "stop_loss_atr" then some .stopATR
  else if key = "rsi_oversold" then some .rsiOversold
  else if key = "risk_per_trade" then some .riskPct
  else if key = "bb_period" then some .bbPeriod
  else if key = "rsi_overbought" then some .rsiOverbought
  else if key = "macd_fast" then some .macdFast
  else if key = "macd_slow" then some .macdSlow
  else if key = "macd_signal" then some .macdSignal
  else none

/-- Overwrite one strategy-parameter field. -/
def setParam (p : StrategyParameters) : ParamField → ℚ → StrategyParameters
  | .rsiPeriod, v => { p with rsiPeriod := v }
  | .bbStd, v => { p with bbStd := v }
  | .stopATR, v => { p with stopATR := v }
  | .rsiOversold, v => { p with rsiOversold := v }
  | .riskPct, v => { p with riskPct := v }
  | .bbPeriod, v => { p with bbPeriod := v }
  | .rsiOverbought, v => { p with rsiOverbought := v }
  | .macdFast, v => { p with macdFast := v }
  | .macdSlow, v => { p with macdSlow := v }
  | .macdSignal, v => { p with macdSignal := v }

/-- The per-cell parameter set: the base configuration with the mapped
parameter(s) overwritten by the cell's axis values (`v1` on axis 1, `v2`
on axis 2; axis 2 only when its key is mapped and is not `"select"`). -/
def cellParams (baseParams : StrategyParameters) (p1Key p2Key : String) (v1 v2 : ℚ) :
    StrategyParameters :=
  let cp := match paramKeyMap p1Key with
    | some f => setParam baseParams f v1
    | none => baseParams
  match paramKeyMap p2Key with
  | some f => if p2Key ≠ "select" then setParam cp f v2 else cp
  | none => cp

/-- Buy-and-hold benchmark CAGR computed from the raw close series. -/
def benchmarkCagrOf (P : Prims) (data : StockData) : ℚ :=
  let years := (P.dateMs (data.dates.getD (data.dates.length - 1) "")
      - P.dateMs (data.dates.getD 0 "")) / ((1461 / 4) * 24 * 3600 * 1000)
  let buyHoldReturn := (data.c.getD (data.c.length - 1) 0 - data.c.getD 0 0) / data.c.getD 0 0
  if years > 0 then (P.powr (1 + buyHoldReturn) (1 / years) - 1) * 100 else 0

/-- The objective value the optimizer reads off a backtest
(`sharpe` is also the `default` branch of the `switch`). -/
def objectiveScore (metric : String) (benchmarkCagr : ℚ) (bt : BacktestResult) : ℚ :=
  if metric = "sharpe" then bt.metrics.sharpeRatio
  else if metric = "cagr" then bt.metrics.cagr
  else if metric = "alpha_cagr" then bt.metrics.cagr - benchmarkCagr
  else if metric = "win_rate" then bt.metrics.winRate
  else if metric = "max_drawdown" then -bt.metrics.maxDrawdown
  else bt.metrics.sharpeRatio

/-- One grid cell: recompute indicators and backtest at daily resolution
with the overridden parameters, score it, and force the score to
`-Infinity` when fewer than 5 round trips were produced. -/
def cellEval (P : Prims) (data : StockData) (baseParams : StrategyParameters)
    (p1Key p2Key metric : String) (benchmarkCagr : ℚ) (v2 v1 : ℚ) : JNum × BacktestResult :=
  let currentParams := cellParams baseParams p1Key p2Key v1 v2
  let indicators := calculateAllIndicators P data currentParams
  let bt := runBacktest P data indicators currentParams Timeframe.daily
  let raw := objectiveScore metric benchmarkCagr bt
  let score : JNum := if bt.metrics.numTrades < 5 then .negInf else .num raw
  (score, bt)

/-- `grid[i][j] = isFinite(score) ? score : null`. -/
def jnumToCell : JNum → Option ℚ
  | .num q => some q
  | _ => none

/-- The second axis collapses to the single dummy value `0` when unused:
`p2Key === 'select' || p2Range.length === 0 ? [0] : p2Range`. -/
def effectiveP2Range (p2Key : String) (p2Range : List ℚ) : List ℚ :=
  if p2Key = "select" ∨ p2Range = [] then [0] else p2Range

/-- The best-cell accumulator. -/
structure OptBest where
  score : JNum
  params : List (ParamField × ℚ)
  bt : BacktestResult
deriving DecidableEq

/-- Placeholder standing for the source's `{} as BacktestResult` initial
best (an empty object cast): all-empty, all-zero result. -/
def emptyBacktestResult : BacktestResult :=
  ⟨[], [], [], [], ⟨0, 0, 0, .num 0, 0, 0, 0, 0, 0, .num 0, 0, 0, 0, 0⟩⟩

/-- `best` before the scan: `{ score: -Infinity, params: {}, bt: {} }`. -/
def optInitBest : OptBest :=
  ⟨JNum.negInf, [], emptyBacktestResult⟩

/-- The parameter record attached to a newly best cell. -/
def bestParamsFor (p1Key p2Key : String) (v1 v2 : ℚ) : List (ParamField × ℚ) :=
  (match paramKeyMap p1Key with
    | some f => [(f, v1)]
    | none => []) ++
  (match paramKeyMap p2Key with
    | some f => if p2Key ≠ "select" then [(f, v2)] else []
    | none => [])

/-- Result of `runOptimization`: the score grid and the best cell
(`none` models the `best: null` fallback for insufficient data). -/
structure OptimizationOutcome where
  grid : List (List (Option ℚ))
  best : Option OptBest
deriving DecidableEq

/-- `runOptimization(data, baseParams, p1Key, p1Range, p2Key, p2Range,
metric)`: row-major sweep; rows are axis-2 values, columns axis-1. -/
def runOptimization (P : Prims) (data : StockData) (baseParams : StrategyParameters)
    (p1Key : String) (p1Range : List ℚ) (p2Key : String) (p2Range : List ℚ)
    (metric : String) : OptimizationOutcome :=
  if data.dates.length > 1 ∧ data.c.length > 1 then
    let benchmarkCagr := benchmarkCagrOf P data
    let effP2 := effectiveP2Range p2Key p2Range
    let grid := effP2.map (fun v2 => p1Range.map (fun v1 =>
      jnumToCell (cellEval P data baseParams p1Key p2Key metric benchmarkCagr v2 v1).1))
    let best := (effP2.flatMap (fun v2 => p1Range.map (fun v1 => (v2, v1)))).foldl
      (fun (b : OptBest) vv =>
        let cell := cellEval P data baseParams p1Key p2Key metric benchmarkCagr vv.1 vv.2
        if JNum.jlt b.score cell.1 then
          ⟨cell.1, bestParamsFor p1Key p2Key vv.2 vv.1, cell.2⟩
        else b)
      optInitBest
    ⟨grid, some best⟩
  else
    ⟨[], none⟩

-- RANGE-SPEC PARSER (src/utils.ts)

/-- Remove all whitespace: `spec.replace(/\s+/g, '')`. -/
def stripWs (cs : List Char) : List Char :=
  cs.filter (fun ch => !ch.isWhitespace)

/-- JS `String.prototype.split` with a one-character separator. -/
def charSplit (sep : Char) : List Char → List (List Char)
  | [] => [[]]
  | ch :: rest =>
    match charSplit sep rest with
    | [] => [[]]
    | g :: gs => if ch = sep then [] :: g :: gs else (ch :: g) :: gs

/-- Decimal digits to a natural number. -/
def digitsToNat (cs : List Char) : ℕ :=
  cs.foldl (fun a ch => a * 10 + (ch.toNat - 48)) 0

/-- JS `Number(s)` on a whitespace-free string, for plain decimal forms
(optional sign, digits, optional fraction); `none` models `NaN`.
`Number('')` is `0`. -/
def jsNum (cs : List Char) : Option ℚ :=
  if cs.isEmpty then some 0
  else
    let sgn : ℚ := if cs.headD ' ' = '-' then -1 else 1
    let body := if cs.headD ' ' = '-' ∨ cs.headD ' ' = '+' then cs.tail else cs
    match charSplit '.' body with
    | [ip] =>
      if ip.length ≠ 0 ∧ ip.all Char.isDigit then
        some (sgn * (digitsToNat ip : ℚ))
      else none
    | [ip, fp] =>
      if (ip.length ≠ 0 ∨ fp.length ≠ 0) ∧ ip.all Char.isDigit ∧ fp.all Char.isDigit then
        some (sgn * ((digitsToNat ip : ℚ) + (digitsToNat fp : ℚ) / (10 ^ fp.length : ℚ)))
      else none
    | _ => none

/-- `Number.isInteger`. -/
def jsIsInteger (q : ℚ) : Bool :=
  q.den = 1

/-- Number of decimal digits `String(step)` shows after the point, for a
terminating decimal: the least `p ≤ 20` with `step * 10^p` integral. -/
def decimalsOf (q : ℚ) : ℕ :=
  ((List.range 21).find? (fun p => jsIsInteger (q * 10 ^ p))).getD 20

/-- `v.toFixed(prec)` re-read as a number: round half toward `+∞` at
`prec` decimal places. -/
def jsToFixed (v : ℚ) (prec : ℕ) : ℚ :=
  (⌊v * 10 ^ prec + 1 / 2⌋ : ℚ) / (10 ^ prec : ℚ)

/-- The emission loop of `parseRangeSpec`:
`for (v = min; v <= max + 1e-9 && out.length < cap; v += step)`. -/
def rangeLoop (mx step : ℚ) (prec : ℕ) : ℕ → ℚ → List ℚ
  | 0, _ => []
  | fuel + 1, v =>
    if v ≤ mx + 1 / 1000000000 then
      jsToFixed v prec :: rangeLoop mx step prec fuel (v + step)
    else []

/-- `parseRangeSpec(spec, cap = 80)` (strings processed as their
character lists). -/
def parseRangeSpec (spec : String) (cap : ℕ := 80) : List ℚ :=
  if spec.data.isEmpty then []
  else
    let clean := stripWs spec.data
    let pieces := charSplit ':' clean
    let range := pieces.getD 0 []
    let stepStr := pieces.getD 1 []
    if range.isEmpty then []
    else
      let nums := (charSplit '-' range).map jsNum
      match nums.getD 0 none, nums.getD 1 none with
      | some mn0, some mx0 =>
        let mn := if mn0 > mx0 then mx0 else mn0
        let mx := if mn0 > mx0 then mn0 else mx0
        let step0 : Option ℚ :=
          if ¬ stepStr.isEmpty then jsNum stepStr
          else some (if jsIsInteger mn ∧ jsIsInteger mx then 1 else 1 / 2)
        let step := match step0 with
          | some st => if st ≤ 0 then 1 else st
          | none => 1
        let prec := decimalsOf step
        rangeLoop mx step prec cap mn
      | _, _ => []

-- HELPER LEMMAS

/-- Number of buy entries in a trade ledger. -/
def countB (L : List Trade) : ℕ :=
  L.countP (fun t => t.type == TType.buy)

/-- Number of sell entries in a trade ledger. -/
def countS (L : List Trade) : ℕ :=
  L.countP (fun t => t.type == TType.sell)

/-- Open positions implied by an option slot. -/
def posCount : Option Pos → ℕ
  | some _ => 1
  | none => 0

/-- Every prefix of the ledger closes at most as many positions as it
opened, and never has two opens without a close in between. -/
def LedgerBalanced (L : List Trade) : Prop :=
  ∀ k, countS (L.take k) ≤ countB (L.take k) ∧ countB (L.take k) ≤ countS (L.take k) + 1

/-- The loop invariant tying the ledger to the position slot. -/
def Inv (s : BTState) : Prop :=
  countB s.trades = countS s.trades + posCount s.pos ∧ LedgerBalanced s.trades

-- CONCRETE INPUTS USED BY THE WITNESSES

/-- Trivial primitive bundle for concrete runs. -/
def primsZero : Prims :=
  ⟨fun _ => 0, fun _ _ => 0, fun _ => 0⟩

/-- A configuration with every feature toggle off. -/
def paramsAllOff : StrategyParameters :=
  { useBB := false, useRSI := false, useMACD := false
    bbPeriod := 20, bbStd := 2, rsiPeriod := 14
    rsiOverbought := 70, rsiOversold := 30
    macdFast := 12, macdSlow := 26, macdSignal := 9
    riskPct := 2, stopATR := 1, commission := 0, slipBps := 0
    useTrendFilter := false, trendFilterPeriod := 200
    useTakeProfit := false, takeProfitATR := 3
    useMomentumEntry := false, momentumSMAPeriod := 20 }

/-- `paramsAllOff` with the RSI reversal rules switched on. -/
def paramsRsiOn : StrategyParameters :=
  { paramsAllOff with useRSI := true }

/-- A two-bar constant series. -/
def dataTwoBars : StockData :=
  { dates := ["d0", "d1"], o := [100, 100], h := [100, 100]
    l := [100, 100], c := [100, 100], v := [0, 0] }

/-- Thirty constant-price bars: close 100, high 101, low 99 throughout
(the spec's RSI edge-case scenario). -/
def dataThirtyFlat : StockData :=
  { dates := List.replicate 30 "d"
    o := List.replicate 30 100
    h := List.replicate 30 101
    l := List.replicate 30 99
    c := List.replicate 30 100
    v := List.replicate 30 0 }

/-- A five-bar series. -/
def dataFiveBars : StockData :=
  { dates := ["d0", "d1", "d2", "d3", "d4"]
    o := [100, 100, 100, 100, 110], h := [100, 100, 100, 100, 110]
    l := [100, 100, 100, 100, 110], c := [100, 100, 100, 100, 110]
    v := [0, 0, 0, 0, 0] }

/-- Hand-written indicators for `dataFiveBars` forcing an RSI buy vote at
bar 1 and an RSI sell vote at bar 3. -/
def indFiveBars : Indicators :=
  { bb := ⟨List.replicate 5 none, List.replicate 5 none, List.replicate 5 none⟩
    rsi := [none, some 20, none, some 80, none]
    macd := ⟨List.replicate 5 none, List.replicate 5 none, List.replicate 5 none⟩
    atr := List.replicate 5 none
    sma_slow := List.replicate 5 none
    sma_fast := List.replicate 5 none }

/-- A loop state holding 100 shares entered at 100, used by witnesses. -/
def statePos100 : BTState :=
  ⟨10000, some ⟨100, 100⟩, [], [], 10000, 0, [], 0⟩

lemma countB_append (L M : List Trade) : countB (L ++ M) = countB L + countB M :=
  List.countP_append _ _ _

lemma countS_append (L M : List Trade) : countS (L ++ M) = countS L + countS M :=
  List.countP_append _ _ _

lemma ledgerBalanced_append_one (L : List Trade) (t : Trade) (hL : LedgerBalanced L)
    (h1 : countS (L ++ [t]) ≤ countB (L ++ [t]))
    (h2 : countB (L ++ [t]) ≤ countS (L ++ [t]) + 1) :
    LedgerBalanced (L ++ [t]) := by
  intro k
  rcases le_or_lt k L.length with hk | hk
  · rw [List.take_append_eq_append_take, Nat.sub_eq_zero_of_le hk, List.take_zero,
      List.append_nil]
    exact hL k
  · rw [List.take_append_eq_append_take, List.take_of_length_le (Nat.le_of_lt hk),
      List.take_of_length_le (by simp only [List.length_singleton]; omega)]
    exact ⟨h1, h2⟩

lemma inv_of_close (s s' : BTState) (t : Trade) (pr : Pos) (h : Inv s)
    (hp : s.pos = some pr) (ht : s'.trades = s.trades ++ [t])
    (hty : t.type = TType.sell) (hp' : s'.pos = none) : Inv s' := by
  obtain ⟨hb, hbal⟩ := h
  rw [hp] at hb
  have hcb : countB (s.trades ++ [t]) = countS s.trades + 1 := by
    rw [countB_append, hb]
    simp [countB, hty, posCount]
  have hcs : countS (s.trades ++ [t]) = countS s.trades + 1 := by
    rw [countS_append]
    simp [countS, hty]
  constructor
  · rw [ht, hp', hcb, hcs]
    simp [posCount]
  · rw [ht]
    exact ledgerBalanced_append_one _ _ hbal (by rw [hcb, hcs]) (by rw [hcb, hcs]; omega)

lemma inv_of_open (s s' : BTState) (t : Trade) (pr : Pos) (h : Inv s)
    (hp : s.pos = none) (ht : s'.trades = s.trades ++ [t])
    (hty : t.type = TType.buy) (hp' : s'.pos = some pr) : Inv s' := by
  obtain ⟨hb, hbal⟩ := h
  rw [hp] at hb
  simp [posCount] at hb
  have hcb : countB (s.trades ++ [t]) = countS s.trades + 1 := by
    rw [countB_append, hb]
    simp [countB, hty]
  have hcs : countS (s.trades ++ [t]) = countS s.trades := by
    rw [countS_append]
    simp [countS, hty]
  constructor
  · rw [ht, hp', hcb, hcs]
    simp [posCount]
  · rw [ht]
    exact ledgerBalanced_append_one _ _ hbal (by rw [hcb, hcs]; omega) (by rw [hcb, hcs])

lemma inv_of_same (s s' : BTState) (ht : s'.trades = s.trades) (hp : s'.pos = s.pos)
    (h : Inv s) : Inv s' := by
  obtain ⟨hb, hbal⟩ := h
  exact ⟨by rw [ht, hp]; exact hb, by rw [ht]; exact hbal⟩

lemma applySignalExit_inv (data : StockData) (p : StrategyParameters) (slip : ℚ)
    (sellIdx : List ℕ) (i : ℕ) (s : BTState) (h : Inv s) :
    Inv (applySignalExit data p slip sellIdx i s) := by
  unfold applySignalExit
  cases hpos : s.pos with
  | none => exact h
  | some pr =>
    dsimp only
    by_cases hmem : i - 1 ∈ sellIdx
    · rw [if_pos hmem]
      exact inv_of_close s _ _ pr h hpos rfl rfl rfl
    · rw [if_neg hmem]
      exact h

lemma applyTakeProfit_inv (data : StockData) (atr : List (Option ℚ)) (p : StrategyParameters)
    (slip : ℚ) (i : ℕ) (s : BTState) (h : Inv s) :
    Inv (applyTakeProfit data atr p slip i s) := by
  unfold applyTakeProfit
  cases hpos : s.pos with
  | none => exact h
  | some pr =>
    dsimp only
    by_cases htp : p.useTakeProfit = true
    · rw [if_pos htp]
      by_cases hhit : data.h.getD i 0 ≥ pr.entry + p.takeProfitATR * atrAt data atr i
      · rw [if_pos hhit]
        exact inv_of_close s _ _ pr h hpos rfl rfl rfl
      · rw [if_neg hhit]
        exact h
    · rw [if_neg htp]
      exact h

lemma applyStopLoss_inv (data : StockData) (atr : List (Option ℚ)) (p : StrategyParameters)
    (slip : ℚ) (i : ℕ) (s : BTState) (h : Inv s) :
    Inv (applyStopLoss data atr p slip i s) := by
  unfold applyStopLoss
  cases hpos : s.pos with
  | none => exact h
  | some pr =>
    dsimp only
    by_cases hhit : data.l.getD i 0 ≤ pr.entry - p.stopATR * atrAt data atr i
    · rw [if_pos hhit]
      exact inv_of_close s _ _ pr h hpos rfl rfl rfl
    · rw [if_neg hhit]
      exact h

lemma applyEntry_inv (data : StockData) (atr : List (Option ℚ)) (p : StrategyParameters)
    (slip : ℚ) (buyIdx : List ℕ) (i : ℕ) (s : BTState) (h : Inv s) :
    Inv (applyEntry data atr p slip buyIdx i s) := by
  unfold applyEntry
  cases hpos : s.pos with
  | some pr => exact h
  | none =>
    dsimp only
    by_cases hmem : i - 1 ∈ buyIdx
    · rw [if_pos hmem]
      by_cases hg : 0 < ⌊s.cash * (p.riskPct / 100) /
            max (1 / 100) (p.stopATR * atrAt data atr i)⌋ ∧
          s.cash ≥ (⌊s.cash * (p.riskPct / 100) /
            max (1 / 100) (p.stopATR * atrAt data atr i)⌋ : ℚ)
            * (data.o.getD i 0 * (1 + slip)) + p.commission
      · rw [if_pos hg]
        exact inv_of_open s _ _ _ h hpos rfl rfl rfl
      · rw [if_neg hg]
        exact h
    · rw [if_neg hmem]
      exact h

lemma applyMark_inv (data : StockData) (i : ℕ) (s : BTState) (h : Inv s) :
    Inv (applyMark data i s) :=
  inv_of_same s _ rfl rfl h

lemma stepBar_inv (data : StockData) (atr : List (Option ℚ)) (p : StrategyParameters)
    (slip : ℚ) (buyIdx sellIdx : List ℕ) (s : BTState) (i : ℕ) (h : Inv s) :
    Inv (stepBar data atr p slip buyIdx sellIdx s i) :=
  applyMark_inv _ _ _
    (applyEntry_inv _ _ _ _ _ _ _
      (applyStopLoss_inv _ _ _ _ _ _
        (applyTakeProfit_inv _ _ _ _ _ _
          (applySignalExit_inv _ _ _ _ _ _ h))))

lemma foldl_stepBar_inv (data : StockData) (atr : List (Option ℚ)) (p : StrategyParameters)
    (slip : ℚ) (buyIdx sellIdx : List ℕ) (l : List ℕ) (s : BTState) (h : Inv s) :
    Inv (l.foldl (stepBar data atr p slip buyIdx sellIdx) s) := by
  induction l generalizing s with
  | nil => exact h
  | cons x xs ih =>
    exact ih _ (stepBar_inv _ _ _ _ _ _ _ _ h)

lemma backtestFinal_inv (data : StockData) (ind : Indicators) (p : StrategyParameters) :
    Inv (backtestFinal data ind p) := by
  unfold backtestFinal
  exact foldl_stepBar_inv _ _ _ _ _ _ _ _
    ⟨rfl, fun k => by simp [countB, countS, initState]⟩

lemma emitSignal_index (b sl m : Bool) (i : ℕ) (d : String) (px : ℚ) (sig : Signal)
    (h : emitSignal b sl m i d px = some sig) : sig.index = i := by
  unfold emitSignal at h
  split at h
  · injection h with h'
    subst h'
    rfl
  · split at h
    · injection h with h'
      subst h'
      rfl
    · cases h

lemma signalAt_index (data : StockData) (ind : Indicators) (p : StrategyParameters)
    (i : ℕ) (sig : Signal) (h : signalAt data ind p i = some sig) : sig.index = i := by
  unfold signalAt at h
  exact emitSignal_index _ _ _ _ _ _ _ h

lemma countP_index_filterMap (data : StockData) (ind : Indicators) (p : StrategyParameters)
    (i : ℕ) : ∀ l : List ℕ, l.Nodup →
      ((l.filterMap (signalAt data ind p)).countP (fun s => s.index == i))
        ≤ if i ∈ l then 1 else 0 := by
  intro l
  induction l with
  | nil => simp
  | cons x xs ih =>
    intro hnd
    have hnd' := List.nodup_cons.mp hnd
    rw [List.filterMap_cons]
    rcases hx : signalAt data ind p x with _ | sig
    · refine le_trans (ih hnd'.2) ?_
      by_cases hm : i ∈ xs
      · simp [hm, List.mem_cons]
      · simp [hm]
    · rw [List.countP_cons]
      have hidx := signalAt_index data ind p x sig hx
      by_cases hxi : x = i
      · subst hxi
        have h0 : ((xs.filterMap (signalAt data ind p)).countP (fun s => s.index == x)) = 0 := by
          have hle := ih hnd'.2
          rw [if_neg hnd'.1] at hle
          exact Nat.le_zero.mp hle
        simp [h0, hidx, List.mem_cons]
      · have hbx : (sig.index == i) = false := by
          simp [hidx, hxi]
        rw [hbx, if_neg (by simp : ¬(false = true)), Nat.add_zero]
        refine le_trans (ih hnd'.2) ?_
        by_cases hm : i ∈ xs
        · simp [hm, List.mem_cons]
        · simp [hm]

/-- Claim C5: for every series, indicator set and configuration, the
signal list of `generateSignals` holds at most one signal per bar index
(hence never both a buy and a sell at one index), and bar 0 never
receives a signal. -/
theorem generateSignals_at_most_one_per_bar (data : StockData) (ind : Indicators)
    (p : StrategyParameters) :
    (∀ i, ((generateSignals data ind p).countP (fun s => s.index == i)) ≤ 1) ∧
      ((generateSignals data ind p).countP (fun s => s.index == 0)) = 0 := by
  constructor
  · intro i
    unfold generateSignals
    refine le_trans
      (countP_index_filterMap data ind p i _ (List.nodup_range' _ _)) ?_
    split
    · exact le_refl 1
    · exact Nat.zero_le 1
  · rw [List.countP_eq_zero]
    intro sig hs
    obtain ⟨x, hx, hfx⟩ := List.mem_filterMap.mp hs
    have hidx := signalAt_index data ind p x sig hfx
    have hx1 : 1 ≤ x := by
      have := List.mem_range'.mp hx
      omega
    simp only [beq_iff_eq]
    omega

/-- Claim C1: throughout every run of `runBacktest` at most one position
is open: along every prefix of the trade ledger, sells never outnumber
buys and buys never exceed sells by more than one — a position is opened
only when flat, and never added to. -/
theorem runBacktest_single_open_position (P : Prims) (data : StockData) (ind : Indicators)
    (p : StrategyParameters) (tf : Timeframe) (k : ℕ) :
    countS (((runBacktest P data ind p tf).trades).take k)
        ≤ countB (((runBacktest P data ind p tf).trades).take k) ∧
      countB (((runBacktest P data ind p tf).trades).take k)
        ≤ countS (((runBacktest P data ind p tf).trades).take k) + 1 := by
  have ht : (runBacktest P data ind p tf).trades = (backtestFinal data ind p).trades := rfl
  rw [ht]
  exact (backtestFinal_inv data ind p).2 k

/-- Claim C10: whenever the gross loss over the paired round trips of a
`runBacktest` run is 0 — including the zero-trade case — the reported
`profitFactor` is positive infinity, never 0 and never NaN. -/
theorem profitFactor_posInf_of_no_gross_loss (P : Prims) (data : StockData)
    (ind : Indicators) (p : StrategyParameters) (tf : Timeframe)
    (hgl : grossLossOf (pairTrades (runBacktest P data ind p tf).trades) = 0) :
    (runBacktest P data ind p tf).metrics.profitFactor = JNum.posInf ∧
      (runBacktest P data ind p tf).metrics.profitFactor ≠ JNum.num 0 ∧
      (runBacktest P data ind p tf).metrics.profitFactor ≠ JNum.nan := by
  have hpf : (runBacktest P data ind p tf).metrics.profitFactor =
      (if grossLossOf (pairTrades (runBacktest P data ind p tf).trades) > 0 then
        JNum.num (grossProfitOf (pairTrades (runBacktest P data ind p tf).trades) /
          grossLossOf (pairTrades (runBacktest P data ind p tf).trades))
      else JNum.posInf) := rfl
  rw [hpf, hgl, if_neg (lt_irrefl (0 : ℚ))]
  exact ⟨rfl, by decide, by decide⟩

/-- Witness for C10: a two-bar, all-toggles-off run produces no trades,
so its gross loss is 0 and the profit factor is `Infinity`. -/
theorem profitFactor_posInf_witness :
    grossLossOf (pairTrades (runBacktest primsZero dataTwoBars
        (calculateAllIndicators primsZero dataTwoBars paramsAllOff) paramsAllOff
        Timeframe.daily).trades) = 0 ∧
      (runBacktest primsZero dataTwoBars
        (calculateAllIndicators primsZero dataTwoBars paramsAllOff) paramsAllOff
        Timeframe.daily).metrics.profitFactor = JNum.posInf := by
  have h : grossLossOf (pairTrades (runBacktest primsZero dataTwoBars
      (calculateAllIndicators primsZero dataTwoBars paramsAllOff) paramsAllOff
      Timeframe.daily).trades) = 0 := by decide
  exact ⟨h, (profitFactor_posInf_of_no_gross_loss primsZero dataTwoBars
    (calculateAllIndicators primsZero dataTwoBars paramsAllOff) paramsAllOff
    Timeframe.daily h).1⟩

set_option maxRecDepth 100000 in
set_option maxHeartbeats 4000000 in
/-- Claim C3 counterexample: on the 30 constant-price bars (close 100,
high 101, low 99) with RSI period 14 (`paramsAllOff.rsiPeriod = 14`), the
first defined RSI output is `100 - 100/1001 = 100000/1001 ≈ 99.9`, not
50: with zero average loss the code substitutes the sentinel ratio
`RS = 1000` rather than balancing gains against losses. -/
theorem rsi_constant_series_not_fifty :
    (calculateAllIndicators primsZero dataThirtyFlat paramsAllOff).rsi.getD 14 none
        = some (100000 / 1001 : ℚ) ∧
      (100000 / 1001 : ℚ) ≠ 50 := by
  constructor
  · show (calcRSI (List.replicate 30 (100 : ℚ)) 14).getD 14 none = some (100000 / 1001 : ℚ)
    norm_num [calcRSI, rma, List.foldl, List.replicate, List.zip, List.zipWith, List.tail]
  · norm_num

set_option maxRecDepth 100000 in
set_option maxHeartbeats 4000000 in
/-- Claim C3 (amended): on the 30 constant-price bars with RSI period 14
every warm-up output is undefined and every defined output equals exactly
`100 - 100/1001 = 100000/1001`, the value the sentinel ratio
`RS = 1000` produces — not 50. -/
theorem rsi_constant_series_value (P : Prims) :
    (calculateAllIndicators P dataThirtyFlat paramsAllOff).rsi
      = List.replicate 14 none ++ List.replicate 16 (some (100000 / 1001 : ℚ)) := by
  show calcRSI (List.replicate 30 (100 : ℚ)) 14
      = List.replicate 14 none ++ List.replicate 16 (some (100000 / 1001 : ℚ))
  norm_num [calcRSI, rma, List.foldl, List.replicate, List.zip, List.zipWith, List.tail]

/-- Claim C7 counterexample: a zero or negative step does not yield the
empty sequence — `parseRangeSpec` coerces the step to 1 and emits the
full range. -/
theorem parseRangeSpec_nonpositive_step_counterexample :
    parseRangeSpec ("10-20:0") 80 = [10, 11, 12, 13, 14, 15, 16, 17, 18, 19, 20] ∧
      parseRangeSpec ("10-20:-2") 80 ≠ [] :=
  ⟨by with_unfolding_all decide, by with_unfolding_all decide⟩

lemma runOptimization_grid_cell (P : Prims) (data : StockData) (bp : StrategyParameters)
    (p1Key : String) (p1Range : List ℚ) (p2Key : String) (p2Range : List ℚ)
    (metric : String) (i j : ℕ) (v1 v2 : ℚ)
    (hn : 1 < data.dates.length) (hc : 1 < data.c.length)
    (h2 : (effectiveP2Range p2Key p2Range)[i]? = some v2)
    (h1 : p1Range[j]? = some v1) :
    (((runOptimization P data bp p1Key p1Range p2Key p2Range metric).grid[i]?).bind
        (fun row => row[j]?))
      = some (jnumToCell
          (cellEval P data bp p1Key p2Key metric (benchmarkCagrOf P data) v2 v1).1) := by
  unfold runOptimization
  rw [if_pos (⟨hn, hc⟩ : data.dates.length > 1 ∧ data.c.length > 1)]
  dsimp only
  rw [List.getElem?_map, h2, Option.map_some', Option.some_bind, List.getElem?_map, h1,
    Option.map_some']

/-- Claim C2: a grid cell of `runOptimization` (row `i` on the second
axis, column `j` on the first) is exactly what a direct call of
`calculateAllIndicators` + `runBacktest` at daily resolution
(`Timeframe.daily`, whatever timeframe any caller uses elsewhere)
produces on the base configuration with the cell's axis values written
into the mapped parameters — scored by the requested objective, stored,
and `none` only for the sub-5-trade veto. -/
theorem runOptimization_cell_matches_direct_backtest (P : Prims) (data : StockData)
    (bp : StrategyParameters) (p1Key : String) (p1Range : List ℚ) (p2Key : String)
    (p2Range : List ℚ) (metric : String) (i j : ℕ) (v1 v2 : ℚ)
    (hn : 1 < data.dates.length) (hc : 1 < data.c.length)
    (h2 : (effectiveP2Range p2Key p2Range)[i]? = some v2)
    (h1 : p1Range[j]? = some v1) :
    (((runOptimization P data bp p1Key p1Range p2Key p2Range metric).grid[i]?).bind
        (fun row => row[j]?))
      = some (
          if (runBacktest P data
                (calculateAllIndicators P data (cellParams bp p1Key p2Key v1 v2))
                (cellParams bp p1Key p2Key v1 v2) Timeframe.daily).metrics.numTrades < 5 then
            none
          else
            some (objectiveScore metric (benchmarkCagrOf P data)
              (runBacktest P data
                (calculateAllIndicators P data (cellParams bp p1Key p2Key v1 v2))
                (cellParams bp p1Key p2Key v1 v2) Timeframe.daily))) := by
  rw [runOptimization_grid_cell P data bp p1Key p1Range p2Key p2Range metric i j v1 v2
    hn hc h2 h1]
  by_cases h5 : (runBacktest P data
      (calculateAllIndicators P data (cellParams bp p1Key p2Key v1 v2))
      (cellParams bp p1Key p2Key v1 v2) Timeframe.daily).metrics.numTrades < 5
  · simp only [cellEval, jnumToCell, if_pos h5]
  · simp only [cellEval, jnumToCell, if_neg h5]

/-- Witness for C2 at a concrete input (single-axis sweep over
`rsi_period` on a two-bar series). -/
theorem runOptimization_cell_matches_witness :
    (((runOptimization primsZero dataTwoBars paramsAllOff ("rsi_period") [10, 12]
          ("select") [] ("sharpe")).grid[0]?).bind (fun row => row[0]?))
      = some (
          if (runBacktest primsZero dataTwoBars
                (calculateAllIndicators primsZero dataTwoBars
                  (cellParams paramsAllOff ("rsi_period") ("select") 10 0))
                (cellParams paramsAllOff ("rsi_period") ("select") 10 0)
                Timeframe.daily).metrics.numTrades < 5 then
            none
          else
            some (objectiveScore ("sharpe") (benchmarkCagrOf primsZero dataTwoBars)
              (runBacktest primsZero dataTwoBars
                (calculateAllIndicators primsZero dataTwoBars
                  (cellParams paramsAllOff ("rsi_period") ("select") 10 0))
                (cellParams paramsAllOff ("rsi_period") ("select") 10 0)
                Timeframe.daily))) :=
  runOptimization_cell_matches_direct_backtest primsZero dataTwoBars paramsAllOff
    ("rsi_period") [10, 12] ("select") [] ("sharpe") 0 0 10 0
    (by decide) (by decide) (by decide) (by decide)

/-- Claim C6: a grid cell whose backtest pairs fewer than 5 round trips
is vetoed — its score is forced to `-Infinity` and it is stored in the
grid as the `none` marker, whatever the objective value was. -/
theorem runOptimization_few_trades_cell_null (P : Prims) (data : StockData)
    (bp : StrategyParameters) (p1Key : String) (p1Range : List ℚ) (p2Key : String)
    (p2Range : List ℚ) (metric : String) (i j : ℕ) (v1 v2 : ℚ)
    (hn : 1 < data.dates.length) (hc : 1 < data.c.length)
    (h2 : (effectiveP2Range p2Key p2Range)[i]? = some v2)
    (h1 : p1Range[j]? = some v1)
    (h5 : (runBacktest P data
        (calculateAllIndicators P data (cellParams bp p1Key p2Key v1 v2))
        (cellParams bp p1Key p2Key v1 v2) Timeframe.daily).metrics.numTrades < 5) :
    (((runOptimization P data bp p1Key p1Range p2Key p2Range metric).grid[i]?).bind
        (fun row => row[j]?))
      = some none := by
  rw [runOptimization_grid_cell P data bp p1Key p1Range p2Key p2Range metric i j v1 v2
    hn hc h2 h1]
  simp only [cellEval, jnumToCell, if_pos h5]

/-- Witness for C6: the two-bar series pairs zero round trips, so the
cell is stored as `none`. -/
theorem runOptimization_few_trades_witness :
    (((runOptimization primsZero dataTwoBars paramsAllOff ("rsi_period") [10, 12]
          ("select") [] ("sharpe")).grid[0]?).bind (fun row => row[0]?))
      = some none :=
  runOptimization_few_trades_cell_null primsZero dataTwoBars paramsAllOff
    ("rsi_period") [10, 12] ("select") [] ("sharpe") 0 0 10 0
    (by decide) (by decide) (by decide) (by decide) (by decide)

/-- Claim C8: a parameter identifier outside the ten-key lookup table is
silently ignored — the cell parameters do not depend on that axis value,
and any two cells in the same row of the grid are equal. -/
theorem runOptimization_unknown_param_ignored (P : Prims) (data : StockData)
    (bp : StrategyParameters) (p1Key : String) (p1Range : List ℚ) (p2Key : String)
    (p2Range : List ℚ) (metric : String) (i j j' : ℕ) (v1 v1' v2 : ℚ)
    (hmap : paramKeyMap p1Key = none)
    (hn : 1 < data.dates.length) (hc : 1 < data.c.length)
    (h2 : (effectiveP2Range p2Key p2Range)[i]? = some v2)
    (h1 : p1Range[j]? = some v1)
    (h1' : p1Range[j']? = some v1') :
    (∀ w w' : ℚ, cellParams bp p1Key p2Key w v2 = cellParams bp p1Key p2Key w' v2) ∧
      (((runOptimization P data bp p1Key p1Range p2Key p2Range metric).grid[i]?).bind
          (fun row => row[j]?))
        = (((runOptimization P data bp p1Key p1Range p2Key p2Range metric).grid[i]?).bind
          (fun row => row[j']?)) := by
  have hcp : ∀ w w' : ℚ, cellParams bp p1Key p2Key w v2 = cellParams bp p1Key p2Key w' v2 := by
    intro w w'
    unfold cellParams
    rw [hmap]
  refine ⟨hcp, ?_⟩
  rw [runOptimization_grid_cell P data bp p1Key p1Range p2Key p2Range metric i j v1 v2
      hn hc h2 h1,
    runOptimization_grid_cell P data bp p1Key p1Range p2Key p2Range metric i j' v1' v2
      hn hc h2 h1']
  have hce : cellEval P data bp p1Key p2Key metric (benchmarkCagrOf P data) v2 v1
      = cellEval P data bp p1Key p2Key metric (benchmarkCagrOf P data) v2 v1' := by
    unfold cellEval
    rw [hcp v1 v1']
  rw [hce]

/-- Witness for C8: the unmapped identifier `"momentum"` leaves both
cells of a one-row sweep identical. -/
theorem runOptimization_unknown_param_witness :
    (∀ w w' : ℚ, cellParams paramsAllOff ("momentum") ("select") w 0
        = cellParams paramsAllOff ("momentum") ("select") w' 0) ∧
      (((runOptimization primsZero dataTwoBars paramsAllOff ("momentum") [10, 12]
            ("select") [] ("sharpe")).grid[0]?).bind (fun row => row[0]?))
        = (((runOptimization primsZero dataTwoBars paramsAllOff ("momentum") [10, 12]
            ("select") [] ("sharpe")).grid[0]?).bind (fun row => row[1]?)) :=
  runOptimization_unknown_param_ignored primsZero dataTwoBars paramsAllOff
    ("momentum") [10, 12] ("select") [] ("sharpe") 0 0 1 10 12 0
    (by decide) (by decide) (by decide) (by decide) (by decide) (by decide)

lemma cellEval_score_negInf (P : Prims) (data : StockData) (bp : StrategyParameters)
    (p1Key p2Key metric : String) (bench v2 v1 : ℚ)
    (h5 : (cellEval P data bp p1Key p2Key metric bench v2 v1).2.metrics.numTrades < 5) :
    (cellEval P data bp p1Key p2Key metric bench v2 v1).1 = JNum.negInf := by
  unfold cellEval at h5 ⊢
  dsimp only at h5 ⊢
  rw [if_pos h5]

lemma bestFold_negInf (P : Prims) (data : StockData) (bp : StrategyParameters)
    (p1Key p2Key metric : String) (bench : ℚ) (cells : List (ℚ × ℚ))
    (h : ∀ pr ∈ cells, (cellEval P data bp p1Key p2Key metric bench pr.1 pr.2).1 = JNum.negInf) :
    cells.foldl
      (fun (b : OptBest) vv =>
        let cell := cellEval P data bp p1Key p2Key metric bench vv.1 vv.2
        if JNum.jlt b.score cell.1 then
          ⟨cell.1, bestParamsFor p1Key p2Key vv.2 vv.1, cell.2⟩
        else b)
      optInitBest = optInitBest := by
  induction cells with
  | nil => rfl
  | cons x xs ih =>
    rw [List.foldl_cons]
    dsimp only
    rw [h x (List.mem_cons_self x xs), if_neg (by decide)]
    exact ih (fun pr hpr => h pr (List.mem_cons_of_mem x hpr))

/-- Claim C9: on a series of at least 2 bars on which every cell's score
is forced to `-Infinity` (here: every cell's backtest pairs fewer than 5
round trips), `runOptimization` still returns a non-null best — the
untouched initial accumulator with score `-Infinity`, an empty parameter
record and the placeholder backtest result — while a sub-2-bar series
returns `best = none`. -/
theorem runOptimization_all_vetoed_best (P : Prims) (data : StockData)
    (bp : StrategyParameters) (p1Key : String) (p1Range : List ℚ) (p2Key : String)
    (p2Range : List ℚ) (metric : String)
    (hn : 1 < data.dates.length) (hc : 1 < data.c.length)
    (hall : ∀ v2 v1 : ℚ, v2 ∈ effectiveP2Range p2Key p2Range → v1 ∈ p1Range →
      (cellEval P data bp p1Key p2Key metric (benchmarkCagrOf P data)
        v2 v1).2.metrics.numTrades < 5) :
    (runOptimization P data bp p1Key p1Range p2Key p2Range metric).best = some optInitBest ∧
      optInitBest.score = JNum.negInf ∧ optInitBest.params = [] ∧
      optInitBest.bt = emptyBacktestResult := by
  refine ⟨?_, rfl, rfl, rfl⟩
  unfold runOptimization
  rw [if_pos (⟨hn, hc⟩ : data.dates.length > 1 ∧ data.c.length > 1)]
  dsimp only
  congr 1
  refine bestFold_negInf P data bp p1Key p2Key metric (benchmarkCagrOf P data) _ ?_
  intro pr hpr
  obtain ⟨v2, hv2, hpr2⟩ := List.mem_flatMap.mp hpr
  obtain ⟨v1, hv1, heq⟩ := List.mem_map.mp hpr2
  cases heq
  exact cellEval_score_negInf P data bp p1Key p2Key metric (benchmarkCagrOf P data) v2 v1
    (hall v2 v1 hv2 hv1)

/-- Witness for C9: both cells of a concrete two-bar sweep are vetoed,
and the returned best is the untouched initial accumulator. -/
theorem runOptimization_all_vetoed_witness :
    (runOptimization primsZero dataTwoBars paramsAllOff ("rsi_period") [10, 12]
        ("select") [] ("sharpe")).best = some optInitBest ∧
      optInitBest.score = JNum.negInf ∧ optInitBest.params = [] ∧
      optInitBest.bt = emptyBacktestResult :=
  runOptimization_all_vetoed_best primsZero dataTwoBars paramsAllOff
    ("rsi_period") [10, 12] ("select") [] ("sharpe") (by decide) (by decide)
    (by intro v2 v1 hv2 hv1
        simp [effectiveP2Range] at hv2
        simp only [List.mem_cons, List.mem_singleton, List.not_mem_nil, or_false] at hv1
        subst hv2
        rcases hv1 with h10 | h12
        · subst h10
          decide
        · subst h12
          decide)

lemma applyTakeProfit_of_none (data : StockData) (atr : List (Option ℚ))
    (p : StrategyParameters) (slip : ℚ) (i : ℕ) (s : BTState) (h : s.pos = none) :
    applyTakeProfit data atr p slip i s = s := by
  unfold applyTakeProfit
  rw [h]

lemma applyStopLoss_of_none (data : StockData) (atr : List (Option ℚ))
    (p : StrategyParameters) (slip : ℚ) (i : ℕ) (s : BTState) (h : s.pos = none) :
    applyStopLoss data atr p slip i s = s := by
  unfold applyStopLoss
  rw [h]

lemma applySignalExit_of_notmem (data : StockData) (p : StrategyParameters) (slip : ℚ)
    (sellIdx : List ℕ) (i : ℕ) (s : BTState) (h : i - 1 ∉ sellIdx) :
    applySignalExit data p slip sellIdx i s = s := by
  unfold applySignalExit
  cases hpos : s.pos with
  | none => rfl
  | some pr =>
    dsimp only
    rw [if_neg h]

lemma applyEntry_of_notmem (data : StockData) (atr : List (Option ℚ))
    (p : StrategyParameters) (slip : ℚ) (buyIdx : List ℕ) (i : ℕ) (s : BTState)
    (h : i - 1 ∉ buyIdx) :
    applyEntry data atr p slip buyIdx i s = s := by
  unfold applyEntry
  cases hpos : s.pos with
  | some pr => rfl
  | none =>
    dsimp only
    rw [if_neg h]

lemma applyEntry_trades_tail (data : StockData) (atr : List (Option ℚ))
    (p : StrategyParameters) (slip : ℚ) (buyIdx : List ℕ) (i : ℕ) (s : BTState) :
    ∃ tl, (applyEntry data atr p slip buyIdx i s).trades = s.trades ++ tl := by
  unfold applyEntry
  cases hpos : s.pos with
  | some pr => exact ⟨[], (List.append_nil _).symm⟩
  | none =>
    dsimp only
    by_cases hmem : i - 1 ∈ buyIdx
    · rw [if_pos hmem]
      by_cases hg : 0 < ⌊s.cash * (p.riskPct / 100) /
            max (1 / 100) (p.stopATR * atrAt data atr i)⌋ ∧
          s.cash ≥ (⌊s.cash * (p.riskPct / 100) /
            max (1 / 100) (p.stopATR * atrAt data atr i)⌋ : ℚ)
            * (data.o.getD i 0 * (1 + slip)) + p.commission
      · rw [if_pos hg]
        exact ⟨_, rfl⟩
      · rw [if_neg hg]
        exact ⟨[], (List.append_nil _).symm⟩
    · rw [if_neg hmem]
      exact ⟨[], (List.append_nil _).symm⟩

lemma getElem?_append_middle (L tl : List Trade) (t : Trade) :
    (L ++ t :: tl)[L.length]? = some t := by
  rw [List.getElem?_append_right (le_refl L.length), Nat.sub_self]
  simp

/-- Claim C4: `runBacktest`'s loop body executes signal trades only on
the bar after the signal.  With the signal-index sets taken from
`generateSignals`: (1) holding a position while the previous bar emitted
a sell signal closes it at `o[i] * (1 - slip)` minus the commission,
recorded as the next ledger entry, before any other rule runs; (2) being
flat after the three exit rules while the previous bar emitted a buy
signal (and sizing/affordability pass) enters at `o[i] * (1 + slip)`;
(3)–(4) without a signal on the previous bar, the signal-exit and entry
rules leave the state untouched — a signal on bar `i` itself never
executes on bar `i`. -/
theorem backtest_next_bar_execution (data : StockData) (ind : Indicators)
    (p : StrategyParameters) (i : ℕ) (s : BTState) :
    (∀ pr : Pos, s.pos = some pr → i - 1 ∈ sellIndexList data ind p →
      ((stepBar data ind.atr p (p.slipBps / 10000) (buyIndexList data ind p)
          (sellIndexList data ind p) s i).trades[s.trades.length]?
        = some ⟨TType.sell, data.dates.getD i "",
            data.o.getD i 0 * (1 - p.slipBps / 10000), pr.shares, "Signal Exit"⟩
       ∧ (applySignalExit data p (p.slipBps / 10000) (sellIndexList data ind p) i s).cash
          = s.cash + (pr.shares : ℚ) * (data.o.getD i 0 * (1 - p.slipBps / 10000))
            - p.commission)) ∧
    (∀ s3 : BTState,
      s3 = applyStopLoss data ind.atr p (p.slipBps / 10000) i
          (applyTakeProfit data ind.atr p (p.slipBps / 10000) i
            (applySignalExit data p (p.slipBps / 10000) (sellIndexList data ind p) i s)) →
      s3.pos = none → i - 1 ∈ buyIndexList data ind p →
      0 < ⌊s3.cash * (p.riskPct / 100) / max (1 / 100) (p.stopATR * atrAt data ind.atr i)⌋ →
      s3.cash ≥ (⌊s3.cash * (p.riskPct / 100) /
          max (1 / 100) (p.stopATR * atrAt data ind.atr i)⌋ : ℚ)
          * (data.o.getD i 0 * (1 + p.slipBps / 10000)) + p.commission →
      (stepBar data ind.atr p (p.slipBps / 10000) (buyIndexList data ind p)
          (sellIndexList data ind p) s i).trades[s3.trades.length]?
        = some ⟨TType.buy, data.dates.getD i "",
            data.o.getD i 0 * (1 + p.slipBps / 10000),
            ⌊s3.cash * (p.riskPct / 100) / max (1 / 100) (p.stopATR * atrAt data ind.atr i)⌋,
            "Signal Entry"⟩) ∧
    (i - 1 ∉ sellIndexList data ind p →
      applySignalExit data p (p.slipBps / 10000) (sellIndexList data ind p) i s = s) ∧
    (i - 1 ∉ buyIndexList data ind p →
      applyEntry data ind.atr p (p.slipBps / 10000) (buyIndexList data ind p) i s = s) := by
  refine ⟨?_, ?_, ?_, ?_⟩
  · intro pr hpos hmem
    have h1 : applySignalExit data p (p.slipBps / 10000) (sellIndexList data ind p) i s =
        { s with
          cash := s.cash + (pr.shares : ℚ) * (data.o.getD i 0 * (1 - p.slipBps / 10000))
            - p.commission
          trades := s.trades ++ [⟨TType.sell, data.dates.getD i "",
            data.o.getD i 0 * (1 - p.slipBps / 10000), pr.shares, "Signal Exit"⟩]
          pos := none } := by
      unfold applySignalExit
      rw [hpos]
      dsimp only
      rw [if_pos hmem]
    refine ⟨?_, by rw [h1]⟩
    unfold stepBar
    rw [h1, applyTakeProfit_of_none _ _ _ _ _ _ rfl, applyStopLoss_of_none _ _ _ _ _ _ rfl]
    obtain ⟨tl, htl⟩ := applyEntry_trades_tail data ind.atr p (p.slipBps / 10000)
      (buyIndexList data ind p) i
      { s with
        cash := s.cash + (pr.shares : ℚ) * (data.o.getD i 0 * (1 - p.slipBps / 10000))
          - p.commission
        trades := s.trades ++ [⟨TType.sell, data.dates.getD i "",
          data.o.getD i 0 * (1 - p.slipBps / 10000), pr.shares, "Signal Exit"⟩]
        pos := none }
    show (applyEntry _ _ _ _ _ _ _).trades[s.trades.length]? = _
    rw [htl]
    dsimp only
    rw [List.append_assoc]
    exact getElem?_append_middle _ _ _
  · intro s3 hs3 hpos3 hmem hg1 hg2
    have h4 : applyEntry data ind.atr p (p.slipBps / 10000) (buyIndexList data ind p) i s3 =
        { s3 with
          cash := s3.cash - ((⌊s3.cash * (p.riskPct / 100) /
              max (1 / 100) (p.stopATR * atrAt data ind.atr i)⌋ : ℚ)
              * (data.o.getD i 0 * (1 + p.slipBps / 10000)) + p.commission)
          pos := some ⟨⌊s3.cash * (p.riskPct / 100) /
              max (1 / 100) (p.stopATR * atrAt data ind.atr i)⌋,
            data.o.getD i 0 * (1 + p.slipBps / 10000)⟩
          trades := s3.trades ++ [⟨TType.buy, data.dates.getD i "",
            data.o.getD i 0 * (1 + p.slipBps / 10000),
            ⌊s3.cash * (p.riskPct / 100) / max (1 / 100) (p.stopATR * atrAt data ind.atr i)⌋,
            "Signal Entry"⟩] } := by
      unfold applyEntry
      rw [hpos3]
      dsimp only
      rw [if_pos hmem, if_pos ⟨hg1, hg2⟩]
    unfold stepBar
    rw [← hs3]
    show (applyEntry _ _ _ _ _ _ s3).trades[s3.trades.length]? = _
    rw [h4]
    dsimp only
    exact getElem?_append_middle _ [] _
  · intro hmem
    exact applySignalExit_of_notmem data p _ _ i s hmem
  · intro hmem
    exact applyEntry_of_notmem data ind.atr p _ _ i s hmem

/-- Witness for C4 on the five-bar scenario (buy signal at bar 1, sell
signal at bar 3): the sell executes at bar 4, the buy at bar 2, and bars
without a previous-bar signal leave the state untouched. -/
theorem backtest_next_bar_witness :
    ((stepBar dataFiveBars indFiveBars.atr paramsRsiOn (paramsRsiOn.slipBps / 10000)
        (buyIndexList dataFiveBars indFiveBars paramsRsiOn)
        (sellIndexList dataFiveBars indFiveBars paramsRsiOn) statePos100 4).trades[0]?
      = some ⟨TType.sell, dataFiveBars.dates.getD 4 "",
          dataFiveBars.o.getD 4 0 * (1 - paramsRsiOn.slipBps / 10000), 100, "Signal Exit"⟩
     ∧ (applySignalExit dataFiveBars paramsRsiOn (paramsRsiOn.slipBps / 10000)
          (sellIndexList dataFiveBars indFiveBars paramsRsiOn) 4 statePos100).cash
        = statePos100.cash + ((100 : ℤ) : ℚ)
            * (dataFiveBars.o.getD 4 0 * (1 - paramsRsiOn.slipBps / 10000))
          - paramsRsiOn.commission) ∧
    ((stepBar dataFiveBars indFiveBars.atr paramsRsiOn (paramsRsiOn.slipBps / 10000)
        (buyIndexList dataFiveBars indFiveBars paramsRsiOn)
        (sellIndexList dataFiveBars indFiveBars paramsRsiOn) initState 2).trades[0]?
      = some ⟨TType.buy, dataFiveBars.dates.getD 2 "",
          dataFiveBars.o.getD 2 0 * (1 + paramsRsiOn.slipBps / 10000),
          ⌊(10000 : ℚ) * (paramsRsiOn.riskPct / 100) /
            max (1 / 100) (paramsRsiOn.stopATR * atrAt dataFiveBars indFiveBars.atr 2)⌋,
          "Signal Entry"⟩) ∧
    (applySignalExit dataFiveBars paramsRsiOn (paramsRsiOn.slipBps / 10000)
        (sellIndexList dataFiveBars indFiveBars paramsRsiOn) 1 statePos100 = statePos100) ∧
    (applyEntry dataFiveBars indFiveBars.atr paramsRsiOn (paramsRsiOn.slipBps / 10000)
        (buyIndexList dataFiveBars indFiveBars paramsRsiOn) 1 statePos100 = statePos100) := by
  refine ⟨(backtest_next_bar_execution dataFiveBars indFiveBars paramsRsiOn 4
      statePos100).1 ⟨100, 100⟩ rfl (by decide), ?_, ?_, ?_⟩
  · exact (backtest_next_bar_execution dataFiveBars indFiveBars paramsRsiOn 2 initState).2.1
      _ rfl (by decide) (by decide) (by with_unfolding_all decide)
      (by with_unfolding_all decide)
  · exact (backtest_next_bar_execution dataFiveBars indFiveBars paramsRsiOn 1
      statePos100).2.2.1 (by decide)
  · exact (backtest_next_bar_execution dataFiveBars indFiveBars paramsRsiOn 1
      statePos100).2.2.2 (by decide)

/-- Claim C7 (amended): a range specification whose step component
parses to zero or a negative number is not rejected — `parseRangeSpec`
coerces the step to 1 and returns the usual capped ascending step-1
range over the parsed (swapped-if-needed) bounds. -/
theorem parseRangeSpec_step_coerced_to_one (spec : String) (cap : ℕ) (mn0 mx0 st : ℚ)
    (hne : spec.data.isEmpty = false)
    (hrange : ((charSplit ':' (stripWs spec.data)).getD 0 []).isEmpty = false)
    (hmn : ((charSplit '-' ((charSplit ':' (stripWs spec.data)).getD 0 [])).map
      jsNum).getD 0 none = some mn0)
    (hmx : ((charSplit '-' ((charSplit ':' (stripWs spec.data)).getD 0 [])).map
      jsNum).getD 1 none = some mx0)
    (hstep : ((charSplit ':' (stripWs spec.data)).getD 1 []).isEmpty = false)
    (hsv : jsNum ((charSplit ':' (stripWs spec.data)).getD 1 []) = some st)
    (hst : st ≤ 0) :
    parseRangeSpec spec cap =
      rangeLoop (if mn0 > mx0 then mn0 else mx0) 1 (decimalsOf 1) cap
        (if mn0 > mx0 then mx0 else mn0) := by
  unfold parseRangeSpec
  rw [hne]
  rw [if_neg Bool.false_ne_true]
  dsimp only
  rw [hrange]
  rw [if_neg Bool.false_ne_true]
  rw [hmn, hmx]
  dsimp only
  rw [hstep]
  rw [if_pos (by simp : ¬(false = true))]
  rw [hsv]
  dsimp only
  rw [if_pos hst]

/-- Witness for the amended C7 at `"10-20:-2"`: the step parses to the
negative number −2, and the parse equals the coerced step-1 loop. -/
theorem parseRangeSpec_step_coerced_witness :
    jsNum ((charSplit ':' (stripWs ("10-20:-2").data)).getD 1 []) = some (-2)
      ∧ ((-2 : ℚ) ≤ 0)
      ∧ parseRangeSpec ("10-20:-2") 80 =
          rangeLoop (if (10 : ℚ) > 20 then 10 else 20) 1 (decimalsOf 1) 80
            (if (10 : ℚ) > 20 then 20 else 10) :=
  ⟨by with_unfolding_all decide, by norm_num,
    parseRangeSpec_step_coerced_to_one ("10-20:-2") 80 10 20 (-2)
      (by decide) (by decide)
      (by with_unfolding_all decide) (by with_unfolding_all decide)
      (by decide) (by with_unfolding_all decide) (by norm_num)⟩

end StocksAnalyzer
